import Mathlib

/-!
# Verification of the `generic-arrayvec` core

A shallow embedding of the `generic-arrayvec` Rust crate (files
`src/lib.rs` and `src/plumbing.rs`), together with theorems settling the
specification claims about it.

The crate bridges `generic_array`'s `GenericArray` inline buffer into the
`Array` storage contract of the `arrayvec` crate.  Its two core pieces are

* an index-width selector (`PickIndex` / `IndexForCapacity` in
  `plumbing.rs`): a type-level function from a capacity to the narrowest
  index representation among `()`, `bool`, `u8`, `u16`, `u32`, `usize`;
* storage adapters: `Wrapper<T, N>` in `lib.rs` (backing the
  `GenericArrayVec` / `GenericArrayString` aliases, with `type Index =
  usize`) and `ArrayvecStorageRaw<T, N, I>` in `plumbing.rs`
  (parameterised by the index representation `I`).

Type-level booleans (`typenum`'s `True` / `False`) are embedded as Lean
`Bool`; capacities (`typenum` unsigned type-level numbers, converted with
`N::USIZE`) as `Nat`.  A Rust trait whose impls only cover some
parameter combinations is embedded as an `Option`-valued function that
returns `none` exactly where no impl exists.
-/

set_option autoImplicit false

namespace GenericArrayvec

/-- The six index representations that `PickIndex` can select
(`type Output` of its six impls in `plumbing.rs`). -/
inductive IndexRepr : Type where
  | unit
  | bool
  | u8
  | u16
  | u32
  | usize
deriving DecidableEq, Repr

/-- `PickIndex` (plumbing.rs lines 163-196): a sealed trait on 5-tuples of
type-level booleans with exactly six impls, one per listed pattern; tuples
matching no impl have no `Output`, embedded as `none`. -/
def PickIndex : Bool × Bool × Bool × Bool × Bool → Option IndexRepr
  | (true, true, true, true, true) => some .unit
  | (false, true, true, true, true) => some .bool
  | (false, false, true, true, true) => some .u8
  | (false, false, false, true, true) => some .u16
  | (false, false, false, false, true) => some .u32
  | (false, false, false, false, false) => some .usize
  | _ => none

/-- `PickIndexBreakpoints<N>` (plumbing.rs lines 198-204): the 5-tuple
`(N < 1, N < 2, N < 256, N < 65536, N < 4294967296)` of type-level
comparison outputs. -/
def PickIndexBreakpoints (n : Nat) : Bool × Bool × Bool × Bool × Bool :=
  (decide (n < 1), decide (n < 2), decide (n < 256),
    decide (n < 65536), decide (n < 4294967296))

/-- `IndexForCapacity<N>` (plumbing.rs lines 206-221): the `Output` of
`PickIndex` at `PickIndexBreakpoints<N>`; `none` when the
`PickIndexBreakpoints<N>: PickIndex` bound fails. -/
def IndexForCapacity (n : Nat) : Option IndexRepr :=
  PickIndex (PickIndexBreakpoints n)

/-- The index-representation table of spec section 4.1, written from the
spec's words (strict upper bounds on each tier), for comparison with
`IndexForCapacity`. -/
def specIndexFor (n : Nat) : IndexRepr :=
  if n < 1 then .unit
  else if n < 2 then .bool
  else if n < 256 then .u8
  else if n < 65536 then .u16
  else if n < 4294967296 then .u32
  else .usize

/-- Maximum representable value of each index representation, on the
64-bit platforms the crate targets (`usize` is 64 bits wide). -/
def IndexRepr.maxValue : IndexRepr → Nat
  | .unit => 0
  | .bool => 1
  | .u8 => 255
  | .u16 => 65535
  | .u32 => 4294967295
  | .usize => 2 ^ 64 - 1

/-- Largest value of Rust's `usize` on a 64-bit platform; every
`typenum`-provided capacity satisfies `N::USIZE ≤ USIZE_MAX`. -/
def USIZE_MAX : Nat := 2 ^ 64 - 1

/-- `GenericArray<T, N>` (crate `generic_array`, external collaborator):
a fixed-length inline buffer of exactly `n` elements of `T`, embedded as
a length-indexed list. -/
structure GenericArray (T : Type) (n : Nat) where
  data : List T
  len_eq : data.length = n

/-- `GenericArray::as_slice`: the contiguous read view of the buffer. -/
def GenericArray.as_slice {T : Type} {n : Nat} (b : GenericArray T n) : List T :=
  b.data

/-- `Wrapper<T, N>` (lib.rs lines 68-71): tuple struct around a
`GenericArray<T, N>`; the adapter backing `GenericArrayVec<T, N>` and
`GenericArrayString<N>`. -/
structure Wrapper (T : Type) (n : Nat) where
  fst : GenericArray T n

/-- `impl From<GenericArray<T, N>> for Wrapper<T, N>` (lib.rs 137-144). -/
def Wrapper.fromGenericArray {T : Type} {n : Nat} (arr : GenericArray T n) :
    Wrapper T n :=
  ⟨arr⟩

/-- `impl Into<GenericArray<T, N>> for Wrapper<T, N>` (lib.rs 146-153). -/
def Wrapper.intoGenericArray {T : Type} {n : Nat} (w : Wrapper T n) :
    GenericArray T n :=
  w.fst

/-- `Wrapper::into_inner` (lib.rs 112-114). -/
def Wrapper.into_inner {T : Type} {n : Nat} (w : Wrapper T n) :
    GenericArray T n :=
  w.fst

/-- `Wrapper`'s `Array::capacity` (lib.rs 132-134): `N::to_usize()`, a
static method taking no instance, hence independent of any contents. -/
def Wrapper.capacity (T : Type) (n : Nat) : Nat := n

/-- `Wrapper`'s associated `type Index = usize` (lib.rs 122), a property
of the type, independent of `T` and `n`. -/
def Wrapper.IndexType (T : Type) (n : Nat) : IndexRepr := .usize

/-- `ArrayvecStorageRaw<T, N, I>` (plumbing.rs 8-12): `repr(transparent)`
tuple struct around a `GenericArray<T, N>`, tagged at the type level with
the index representation `I` (the `PhantomData<I>` field carries no
data). -/
structure ArrayvecStorageRaw (T : Type) (n : Nat) (i : IndexRepr) where
  fst : GenericArray T n

/-- `impl From<GenericArray<T, N>> for ArrayvecStorageRaw<T, N, I>`
(plumbing.rs 38-45). -/
def ArrayvecStorageRaw.fromGenericArray {T : Type} {n : Nat} {i : IndexRepr}
    (arr : GenericArray T n) : ArrayvecStorageRaw T n i :=
  ⟨arr⟩

/-- `ArrayvecStorageRaw::new` (plumbing.rs 19-21): delegates to `from`. -/
def ArrayvecStorageRaw.new {T : Type} {n : Nat} {i : IndexRepr}
    (arr : GenericArray T n) : ArrayvecStorageRaw T n i :=
  ArrayvecStorageRaw.fromGenericArray arr

/-- `ArrayvecStorageRaw::into_inner` (plumbing.rs 24-26). -/
def ArrayvecStorageRaw.into_inner {T : Type} {n : Nat} {i : IndexRepr}
    (a : ArrayvecStorageRaw T n i) : GenericArray T n :=
  a.fst

/-- `impl From<ArrayvecStorageRaw<T, N, I>> for GenericArray<T, N>`
(plumbing.rs 47-54). -/
def ArrayvecStorageRaw.intoGenericArray {T : Type} {n : Nat} {i : IndexRepr}
    (a : ArrayvecStorageRaw T n i) : GenericArray T n :=
  a.fst

/-- The `(n, i)` pairs at which plumbing.rs provides an
`unsafe impl Array for ArrayvecStorageRaw<T, N, I>` (lines 56-153):
`()` only at `N = U0`, `bool` only at `N = U1`, `u8` under
`N: IsLess<U256>` with `Output: IsTrue`, `u16` under `N < 65536`,
`u32` under `N < 4294967296`, `usize` unconditionally. -/
def ArrayvecStorageRaw.hasArrayImpl (n : Nat) : IndexRepr → Bool
  | .unit => decide (n = 0)
  | .bool => decide (n = 1)
  | .u8 => decide (n < 256)
  | .u16 => decide (n < 65536)
  | .u32 => decide (n < 4294967296)
  | .usize => true

/-- The associated `type Index` of `ArrayvecStorageRaw<T, N, I>`'s `Array`
impl: each impl sets `Index` to its own tag `I`; `none` where no impl
exists. -/
def ArrayvecStorageRaw.IndexType (n : Nat) (i : IndexRepr) : Option IndexRepr :=
  if ArrayvecStorageRaw.hasArrayImpl n i then some i else none

/-- The associated `const CAPACITY` of `ArrayvecStorageRaw<T, N, I>`'s
`Array` impl: the `()` and `bool` impls hard-code `0` and `1`, the others
use `N::USIZE`; `none` where no impl exists. -/
def ArrayvecStorageRaw.CAPACITY (n : Nat) : IndexRepr → Option Nat
  | .unit => if n = 0 then some 0 else none
  | .bool => if n = 1 then some 1 else none
  | .u8 => if n < 256 then some n else none
  | .u16 => if n < 65536 then some n else none
  | .u32 => if n < 4294967296 then some n else none
  | .usize => some n

/-- `ArrayvecStorageRaw::as_slice`: every `Array` impl returns
`self.0.as_slice()` (e.g. the `u8` impl, plumbing.rs 93-95). -/
def ArrayvecStorageRaw.as_slice {T : Type} {n : Nat} {i : IndexRepr}
    (a : ArrayvecStorageRaw T n i) : List T :=
  a.fst.as_slice

/-- Modelled from the spec: the external `arrayvec` crate's `ArrayVec`
container (out of scope for the core, section 1), as instantiated by
`GenericArrayVec<T, N> = ArrayVec<Wrapper<T, N>>` (lib.rs 51): the
backing `Wrapper` storage plus a length no greater than the capacity;
the live contents are the first `len` stored elements. -/
structure ArrayVec (T : Type) (n : Nat) where
  store : Wrapper T n
  len : Nat
  len_le : len ≤ n

/-- The live contents of a `GenericArrayVec`, in insertion order. -/
def ArrayVec.contents {T : Type} {n : Nat} (v : ArrayVec T n) : List T :=
  v.store.fst.data.take v.len

/-- Modelled from the spec: `arrayvec::ArrayVec::into_inner` (external)
returns the backing storage when the vector is full to capacity and
otherwise rejects the request, handing the vector back unchanged
("requesting it back when fewer than N elements are present is rejected
by the external container"). -/
def ArrayVec.into_inner {T : Type} {n : Nat} (v : ArrayVec T n) :
    Except (ArrayVec T n) (Wrapper T n) :=
  if v.len = n then .ok v.store else .error v

/-- `GenericArrayVecExt::into_generic_array` (lib.rs 195-197):
`Ok(self.into_inner()?.into_inner())`. -/
def ArrayVec.into_generic_array {T : Type} {n : Nat} (v : ArrayVec T n) :
    Except (ArrayVec T n) (GenericArray T n) :=
  match v.into_inner with
  | .ok w => .ok w.into_inner
  | .error e => .error e

/-- Whether a byte is a UTF-8 continuation byte (`0x80..=0xBF`). -/
def isUtf8Cont (b : Nat) : Bool :=
  decide (0x80 ≤ b) && decide (b ≤ 0xBF)

/-- Modelled from the spec: Rust core's UTF-8 validity check
(`str::from_utf8`, external), which `ArrayString::from_byte_string`
applies to the backing buffer: ASCII single bytes, two-byte `C2..DF`,
three-byte `E0`/`E1..EC`/`ED`/`EE..EF` with overlong and surrogate
exclusions, four-byte `F0`/`F1..F3`/`F4` with range exclusions, each
followed by the right number of continuation bytes. -/
def utf8Valid : List Nat → Bool
  | [] => true
  | b :: rest =>
    if b ≤ 0x7F then utf8Valid rest
    else if decide (0xC2 ≤ b) && decide (b ≤ 0xDF) then
      match rest with
      | [] => false
      | b1 :: rest1 => isUtf8Cont b1 && utf8Valid rest1
    else if b = 0xE0 then
      match rest with
      | b1 :: b2 :: rest2 =>
          decide (0xA0 ≤ b1) && decide (b1 ≤ 0xBF) && isUtf8Cont b2 &&
            utf8Valid rest2
      | _ => false
    else if decide (0xE1 ≤ b) && decide (b ≤ 0xEC) then
      match rest with
      | b1 :: b2 :: rest2 => isUtf8Cont b1 && isUtf8Cont b2 && utf8Valid rest2
      | _ => false
    else if b = 0xED then
      match rest with
      | b1 :: b2 :: rest2 =>
          decide (0x80 ≤ b1) && decide (b1 ≤ 0x9F) && isUtf8Cont b2 &&
            utf8Valid rest2
      | _ => false
    else if decide (0xEE ≤ b) && decide (b ≤ 0xEF) then
      match rest with
      | b1 :: b2 :: rest2 => isUtf8Cont b1 && isUtf8Cont b2 && utf8Valid rest2
      | _ => false
    else if b = 0xF0 then
      match rest with
      | b1 :: b2 :: b3 :: rest3 =>
          decide (0x90 ≤ b1) && decide (b1 ≤ 0xBF) && isUtf8Cont b2 &&
            isUtf8Cont b3 && utf8Valid rest3
      | _ => false
    else if decide (0xF1 ≤ b) && decide (b ≤ 0xF3) then
      match rest with
      | b1 :: b2 :: b3 :: rest3 =>
          isUtf8Cont b1 && isUtf8Cont b2 && isUtf8Cont b3 && utf8Valid rest3
      | _ => false
    else if b = 0xF4 then
      match rest with
      | b1 :: b2 :: b3 :: rest3 =>
          decide (0x80 ≤ b1) && decide (b1 ≤ 0x8F) && isUtf8Cont b2 &&
            isUtf8Cont b3 && utf8Valid rest3
      | _ => false
    else false

/-- Modelled from the spec: `core::str::Utf8Error` (external), the error
returned when a byte sequence is not valid UTF-8. -/
structure Utf8Error where

/-- Modelled from the spec: `arrayvec::CapacityError<T>` (external), the
error carrying back the rejected value when an insertion exceeds the
capacity. -/
structure CapacityError (T : Type) where
  element : T

/-- Modelled from the spec: the external `arrayvec` crate's `ArrayString`
backed by `Wrapper<u8, N>` (`GenericArrayString<N>`, lib.rs 57): a
byte-string of length at most `n` holding valid UTF-8 (bytes embedded as
`Nat`). -/
structure ArrayString (n : Nat) where
  bytes : List Nat
  len_le : bytes.length ≤ n
  valid : utf8Valid bytes = true

/-- `ArrayString::len`: the current length in bytes. -/
def ArrayString.len {n : Nat} (s : ArrayString n) : Nat :=
  s.bytes.length

/-- `ArrayString::capacity`: the fixed capacity `A::CAPACITY`. -/
def ArrayString.capacity {n : Nat} (s : ArrayString n) : Nat :=
  n

/-- Modelled from the spec: `arrayvec::ArrayString::from_byte_string`
(external): checks the whole backing buffer for UTF-8 validity; on
success the resulting string holds all `n` bytes (it is full), otherwise
a `Utf8Error` is returned. -/
def ArrayString.from_byte_string {n : Nat} (w : Wrapper Nat n) :
    Except Utf8Error (ArrayString n) :=
  if h : utf8Valid w.fst.data = true then
    .ok ⟨w.fst.data, le_of_eq w.fst.len_eq, h⟩
  else .error ⟨⟩

/-- Modelled from the spec: `arrayvec::ArrayString::from` (external),
which `generic_from` delegates to: copies the whole `str` in if its byte
length fits the capacity, else returns a `CapacityError` carrying the
`str` back.  A `str` is embedded as its UTF-8 bytes together with a
validity proof. -/
def ArrayString.fromStr (n : Nat) (s : List Nat) (hs : utf8Valid s = true) :
    Except (CapacityError (List Nat)) (ArrayString n) :=
  if h : s.length ≤ n then .ok ⟨s, h, hs⟩ else .error ⟨s⟩

/-- `GenericArrayStringExt::generic_from` (lib.rs 220-222):
`ArrayString::from(string)`. -/
def generic_from (n : Nat) (s : List Nat) (hs : utf8Valid s = true) :
    Except (CapacityError (List Nat)) (ArrayString n) :=
  ArrayString.fromStr n s hs

/-- Modelled from the spec: `GenericArray::clone_from_slice` (crate
`generic_array`, external) clones a borrowed slice into a fresh buffer
and panics unless the slice holds exactly `n` elements; the panic is
embedded as `none`. -/
def GenericArray.clone_from_slice (n : Nat) {T : Type} (xs : List T) :
    Option (GenericArray T n) :=
  if h : xs.length = n then some ⟨xs, h⟩ else none

/-- `GenericArrayStringExt::generic_from_byte_string` (lib.rs 261-268):
`ArrayString::from_byte_string(&Wrapper::from(GenericArray::clone_from_slice(byte_string.as_ref())))`
— clones the borrowed byte view into a fresh `GenericArray`, wraps it,
and delegates to `ArrayString::from_byte_string`. -/
def generic_from_byte_string (n : Nat) (bytes : List Nat) :
    Option (Except Utf8Error (ArrayString n)) :=
  (GenericArray.clone_from_slice n bytes).map
    (fun arr => ArrayString.from_byte_string (Wrapper.fromGenericArray arr))

end GenericArrayvec

namespace GenericArrayvec

/-- Helper: the selector agrees with the spec's table at every capacity. -/
theorem indexForCapacity_eq_spec (n : Nat) :
    IndexForCapacity n = some (specIndexFor n) := by
  unfold IndexForCapacity PickIndexBreakpoints specIndexFor
  by_cases h1 : n < 1 <;> by_cases h2 : n < 2 <;> by_cases h3 : n < 256 <;>
    by_cases h4 : n < 65536 <;> by_cases h5 : n < 4294967296 <;>
    first
      | (simp [h1, h2, h3, h4, h5, PickIndex]; try omega)
      | omega

/-- C1: For every capacity `N`, `IndexForCapacity<N>` is exactly the
representation of the section 4.1 table, every tier boundary a strict
less-than on capacity: unit for `N = 0`, bool for `N = 1`, `u8` for
`2 ≤ N < 256`, `u16` for `256 ≤ N < 65536`, `u32` for
`65536 ≤ N < 4294967296`, `usize` otherwise; in particular capacity
exactly 256 selects `u16`, not `u8`. -/
theorem indexForCapacity_eq_specTable :
    (∀ n : Nat, IndexForCapacity n = some (specIndexFor n)) ∧
      IndexForCapacity 256 = some IndexRepr.u16 ∧
      IndexForCapacity 256 ≠ some IndexRepr.u8 :=
  ⟨indexForCapacity_eq_spec, by decide, by decide⟩

/-- C5: The capacity-to-representation mapping is total: at every capacity
`n` the breakpoint 5-tuple is one of the six patterns `PickIndex` handles
(a run of `false` followed by a run of `true`), so the six-way selection
(a pure function of `n`) always produces an output. -/
theorem pickIndexBreakpoints_exhaustive :
    ∀ n : Nat,
      (PickIndexBreakpoints n = (true, true, true, true, true) ∨
        PickIndexBreakpoints n = (false, true, true, true, true) ∨
        PickIndexBreakpoints n = (false, false, true, true, true) ∨
        PickIndexBreakpoints n = (false, false, false, true, true) ∨
        PickIndexBreakpoints n = (false, false, false, false, true) ∨
        PickIndexBreakpoints n = (false, false, false, false, false)) ∧
      ∃ r : IndexRepr, PickIndex (PickIndexBreakpoints n) = some r := by
  intro n
  have hspec := indexForCapacity_eq_spec n
  unfold IndexForCapacity at hspec
  refine ⟨?_, specIndexFor n, hspec⟩
  unfold PickIndexBreakpoints
  by_cases h1 : n < 1 <;> by_cases h2 : n < 2 <;> by_cases h3 : n < 256 <;>
    by_cases h4 : n < 65536 <;> by_cases h5 : n < 4294967296 <;>
    simp [h1, h2, h3, h4, h5] <;> omega

/-- C3: For every capacity `n` representable in `usize` (so including all
the boundary capacities 0, 1, 2, 255, 256, 65535, 65536, 4294967295 and
4294967296), the maximum value of the index representation the selector
chooses for `n` is at least `n`, so the full length `n` is always
representable. -/
theorem chosenIndex_max_ge_capacity (n : Nat) (r : IndexRepr)
    (hn : n ≤ USIZE_MAX) (hr : IndexForCapacity n = some r) :
    n ≤ r.maxValue := by
  rw [indexForCapacity_eq_spec n, Option.some_inj] at hr
  subst hr
  unfold USIZE_MAX at hn
  unfold specIndexFor
  split_ifs with h1 h2 h3 h4 h5 <;> simp [IndexRepr.maxValue] <;> omega

/-- Witness for C3 at the boundary capacity 4294967296, where the selector
picks `usize`. -/
theorem chosenIndex_max_ge_capacity_witness :
    (4294967296 : Nat) ≤ IndexRepr.maxValue IndexRepr.usize :=
  chosenIndex_max_ge_capacity 4294967296 IndexRepr.usize (by norm_num [USIZE_MAX])
    (by decide)

/-- C2 counterexample: at capacity 0 (any element type, here `Unit`) the
selector picks the unit representation, but `Wrapper` — the adapter that
backs `GenericArrayVec<T, U0>` — declares `Index = usize`: the backing
adapter's index is not the selector's output. -/
theorem wrapper_index_ne_selected :
    Wrapper.IndexType Unit 0 = IndexRepr.usize ∧
      IndexForCapacity 0 = some IndexRepr.unit ∧
      some (Wrapper.IndexType Unit 0) ≠ IndexForCapacity 0 :=
  ⟨rfl, by decide, by decide⟩

/-- C2 amended: `Wrapper`, the adapter backing `GenericArrayVec` and
`GenericArrayString`, declares `Index = usize` — always the widest
integer — for every element type and capacity; it is the separate
`ArrayvecStorageRaw` adapter that, instantiated at the selector's output
`I = IndexForCapacity<N>`, exposes an `Index` equal to the selected
representation `R`. -/
theorem adapter_index_repr (T : Type) (n : Nat) (r : IndexRepr)
    (hr : IndexForCapacity n = some r) :
    Wrapper.IndexType T n = IndexRepr.usize ∧
      ArrayvecStorageRaw.IndexType n r = some r := by
  refine ⟨rfl, ?_⟩
  rw [indexForCapacity_eq_spec n, Option.some_inj] at hr
  subst hr
  unfold ArrayvecStorageRaw.IndexType
  have himpl : ArrayvecStorageRaw.hasArrayImpl n (specIndexFor n) = true := by
    unfold specIndexFor ArrayvecStorageRaw.hasArrayImpl
    split_ifs with h1 h2 h3 h4 h5 <;> simp <;> omega
  rw [himpl]
  simp

/-- Witness for C2 amended at capacity 300, where the selector picks
`u16`. -/
theorem adapter_index_repr_witness :
    Wrapper.IndexType Nat 300 = IndexRepr.usize ∧
      ArrayvecStorageRaw.IndexType 300 IndexRepr.u16 = some IndexRepr.u16 :=
  adapter_index_repr Nat 300 IndexRepr.u16 (by decide)

/-- C4: converting a `GenericArray` into either storage adapter and back
out is the identity in both directions — `From`/`new` and
`Into`/`into_inner` are infallible exact inverses, for every element
type, capacity and index tag. -/
theorem buffer_roundtrip_identity (T : Type) (n : Nat) (i : IndexRepr) :
    (∀ b : GenericArray T n,
        (Wrapper.fromGenericArray b).intoGenericArray = b ∧
        (Wrapper.fromGenericArray b).into_inner = b ∧
        (ArrayvecStorageRaw.new b : ArrayvecStorageRaw T n i).into_inner = b ∧
        (ArrayvecStorageRaw.fromGenericArray b :
            ArrayvecStorageRaw T n i).intoGenericArray = b) ∧
      (∀ w : Wrapper T n, Wrapper.fromGenericArray w.intoGenericArray = w) ∧
      (∀ a : ArrayvecStorageRaw T n i,
        ArrayvecStorageRaw.fromGenericArray a.intoGenericArray = a) :=
  ⟨fun _ => ⟨rfl, rfl, rfl, rfl⟩, fun _ => rfl, fun _ => rfl⟩

/-- C6: `Wrapper::capacity` returns exactly `N` for every element type,
and every `Array` impl of `ArrayvecStorageRaw` (the hard-coded `0` and
`1` of the capacity-0 and capacity-1 impls included) has
`CAPACITY = N`; being static items, both are independent of any
instance's contents. -/
theorem capacity_eq (T : Type) (n : Nat) :
    Wrapper.capacity T n = n ∧
      ∀ (i : IndexRepr) (c : Nat),
        ArrayvecStorageRaw.CAPACITY n i = some c → c = n := by
  refine ⟨rfl, ?_⟩
  intro i c h
  cases i <;> simp only [ArrayvecStorageRaw.CAPACITY] at h <;>
    first
      | (split at h <;> simp_all)
      | simp_all

/-- Witness for C6 at element type `Nat`, capacity 1 and the hard-coded
capacity-1 (`bool`-indexed) impl. -/
theorem capacity_eq_witness :
    Wrapper.capacity Nat 1 = 1 ∧ (1 : Nat) = 1 :=
  ⟨(capacity_eq Nat 1).1, (capacity_eq Nat 1).2 IndexRepr.bool 1 (by decide)⟩

/-- C7: the read span of an adapter freshly constructed from a buffer `b`
of capacity `n` (at any index tag with an `Array` impl) has exactly `n`
elements, and its `k`-th element is `b`'s `k`-th element for every
`k < n`. -/
theorem as_slice_of_new (T : Type) (n : Nat) (i : IndexRepr)
    (b : GenericArray T n)
    (himpl : ArrayvecStorageRaw.hasArrayImpl n i = true) :
    ((ArrayvecStorageRaw.new b : ArrayvecStorageRaw T n i).as_slice).length = n ∧
      ∀ k : Nat, k < n →
        ((ArrayvecStorageRaw.new b :
            ArrayvecStorageRaw T n i).as_slice).get? k = b.data.get? k :=
  ⟨b.len_eq, fun _ _ => rfl⟩

/-- Witness for C7: capacity 2, `u8` index tag, buffer `[2, 4]`. -/
theorem as_slice_of_new_witness :
    ((ArrayvecStorageRaw.new ⟨[2, 4], rfl⟩ :
        ArrayvecStorageRaw Nat 2 IndexRepr.u8).as_slice).length = 2 ∧
      ((ArrayvecStorageRaw.new ⟨[2, 4], rfl⟩ :
          ArrayvecStorageRaw Nat 2 IndexRepr.u8).as_slice).get? 0 =
        [2, 4].get? 0 := by
  have h := as_slice_of_new Nat 2 IndexRepr.u8 ⟨[2, 4], rfl⟩ (by decide)
  exact ⟨h.1, h.2 0 (by decide)⟩

/-- C8: when a `GenericArrayVec` is full (`len = n`),
`into_generic_array` returns `Ok` with a `GenericArray` equal to its
contents in insertion order; when it holds fewer than `n` elements the
request is rejected, returning `Err` carrying the vector back
unchanged. -/
theorem into_generic_array_spec (T : Type) (n : Nat) (v : ArrayVec T n) :
    (v.len = n →
      ∃ arr : GenericArray T n,
        v.into_generic_array = .ok arr ∧ arr.data = v.contents) ∧
      (v.len < n → v.into_generic_array = .error v) := by
  constructor
  · intro hfull
    refine ⟨v.store.fst, ?_, ?_⟩
    · unfold ArrayVec.into_generic_array ArrayVec.into_inner
      rw [if_pos hfull]
      rfl
    · show v.store.fst.data = v.store.fst.data.take v.len
      rw [hfull]
      exact (List.take_of_length_le (le_of_eq v.store.fst.len_eq)).symm
  · intro hlt
    unfold ArrayVec.into_generic_array ArrayVec.into_inner
    rw [if_neg (by omega)]

/-- Witness for C8: the full vector `[0, 1, 2, 3, 4]` at capacity 5
yields its buffer, and the same storage at length 3 is rejected with the
vector handed back. -/
theorem into_generic_array_spec_witness :
    (∃ arr : GenericArray Nat 5,
        (⟨⟨⟨[0, 1, 2, 3, 4], rfl⟩⟩, 5, Nat.le_refl 5⟩ :
            ArrayVec Nat 5).into_generic_array = .ok arr ∧
          arr.data = (⟨⟨⟨[0, 1, 2, 3, 4], rfl⟩⟩, 5, Nat.le_refl 5⟩ :
            ArrayVec Nat 5).contents) ∧
      (⟨⟨⟨[0, 1, 2, 3, 4], rfl⟩⟩, 3, by omega⟩ :
          ArrayVec Nat 5).into_generic_array =
        .error (⟨⟨⟨[0, 1, 2, 3, 4], rfl⟩⟩, 3, by omega⟩ : ArrayVec Nat 5) :=
  ⟨(into_generic_array_spec Nat 5 ⟨⟨⟨[0, 1, 2, 3, 4], rfl⟩⟩, 5, Nat.le_refl 5⟩).1
      rfl,
    (into_generic_array_spec Nat 5 ⟨⟨⟨[0, 1, 2, 3, 4], rfl⟩⟩, 3, by omega⟩).2
      (by decide)⟩

/-- C9: for a borrowed byte view of exactly `n` bytes,
`generic_from_byte_string` does not panic, and returns `Ok` exactly when
the bytes are valid UTF-8; on success the string's length and capacity
both equal `n` (it is full) and its bytes equal the input bytes; on
failure it returns a `Utf8Error`. -/
theorem generic_from_byte_string_spec (n : Nat) (bytes : List Nat)
    (hlen : bytes.length = n) :
    (∃ res, generic_from_byte_string n bytes = some res) ∧
      (utf8Valid bytes = true →
        ∃ s : ArrayString n,
          generic_from_byte_string n bytes = some (.ok s) ∧
            s.bytes = bytes ∧ s.len = n ∧ s.capacity = n) ∧
      (utf8Valid bytes = false →
        ∃ e : Utf8Error,
          generic_from_byte_string n bytes = some (.error e)) := by
  unfold generic_from_byte_string GenericArray.clone_from_slice
  rw [dif_pos hlen]
  refine ⟨⟨_, rfl⟩, ?_, ?_⟩
  · intro hv
    refine ⟨⟨bytes, le_of_eq hlen, hv⟩, ?_, rfl, hlen, rfl⟩
    show some (ArrayString.from_byte_string (Wrapper.fromGenericArray ⟨bytes, hlen⟩)) = _
    unfold ArrayString.from_byte_string
    split
    · rfl
    · rename_i h
      exact absurd hv h
  · intro hv
    refine ⟨⟨⟩, ?_⟩
    show some (ArrayString.from_byte_string (Wrapper.fromGenericArray ⟨bytes, hlen⟩)) = _
    unfold ArrayString.from_byte_string
    split
    · rename_i h
      have hb : utf8Valid bytes = true := h
      simp [hv] at hb
    · rfl

/-- Witness for C9: the two-byte view `"hi"` (`[104, 105]`) at capacity 2
succeeds and fills the string; the invalid byte `[255]` at capacity 1
yields a `Utf8Error`. -/
theorem generic_from_byte_string_spec_witness :
    (∃ s : ArrayString 2,
        generic_from_byte_string 2 [104, 105] = some (.ok s) ∧
          s.bytes = [104, 105] ∧ s.len = 2 ∧ s.capacity = 2) ∧
      ∃ e : Utf8Error,
        generic_from_byte_string 1 [255] = some (.error e) :=
  ⟨(generic_from_byte_string_spec 2 [104, 105] rfl).2.1 (by decide),
    (generic_from_byte_string_spec 1 [255] rfl).2.2 (by decide)⟩

/-- C10: `generic_from` succeeds exactly when the `str`'s byte length is
at most the capacity `n`; on success the string's contents equal the
input and its capacity is `n`; on failure it returns a `CapacityError`
carrying the input back. -/
theorem generic_from_spec (n : Nat) (s : List Nat)
    (hs : utf8Valid s = true) :
    (s.length ≤ n →
      ∃ t : ArrayString n,
        generic_from n s hs = .ok t ∧ t.bytes = s ∧ t.capacity = n) ∧
      (n < s.length →
        generic_from n s hs = .error ⟨s⟩) := by
  constructor
  · intro hle
    refine ⟨⟨s, hle, hs⟩, ?_, rfl, rfl⟩
    unfold generic_from ArrayString.fromStr
    rw [dif_pos hle]
  · intro hlt
    unfold generic_from ArrayString.fromStr
    rw [dif_neg (by omega)]

/-- Witness for C10: `"hello"` fits capacity 10 and is copied in whole;
it does not fit capacity 3, which hands the string back in a
`CapacityError`. -/
theorem generic_from_spec_witness :
    (∃ t : ArrayString 10,
        generic_from 10 [104, 101, 108, 108, 111] (by decide) = .ok t ∧
          t.bytes = [104, 101, 108, 108, 111] ∧ t.capacity = 10) ∧
      generic_from 3 [104, 101, 108, 108, 111] (by decide) =
        .error ⟨[104, 101, 108, 108, 111]⟩ :=
  ⟨(generic_from_spec 10 [104, 101, 108, 108, 111] (by decide)).1 (by decide),
    (generic_from_spec 3 [104, 101, 108, 108, 111] (by decide)).2 (by decide)⟩

end GenericArrayvec
